import Mathlib

/-!
Verification of the keyword-planner HTTP adapter (src/app.py).

The file shallowly embeds the pure fragment of the adapter:
the parameter normalizers and the provider-request builder from
`generate_keyword_ideas` (src/app.py lines 120-202), the result formatter
from the `/api/keyword-ideas` handler `get_keyword_ideas`
(src/app.py lines 79-93), and the handler's validation, response assembly
and exception mapping (src/app.py lines 46-118).  The external provider
call itself is abstracted as a parameter (its outcome: a list of ideas, a
`GoogleAdsException`, or any other exception), and the chart renderer is
abstracted as a function from formatted ideas to a base64 string, so that
the handler's control flow around those calls can be stated exactly.
-/

namespace Keywordplanner

/-- Python's `str.startswith`, modelled on the character list underlying a
string: `s.startswith(pre)` holds iff the characters of `pre` are a prefix
of the characters of `s`. -/
def startswith (s pre : String) : Bool := pre.data.isPrefixOf s.data

/-- The `language_mapping` dict of src/app.py lines 124-134, as a lookup
function: membership test `language in language_mapping` corresponds to the
result being `some`, and indexing to the value carried. -/
def language_mapping (l : String) : Option String :=
  if l == "en" then some "languageConstants/1000"
  else if l == "es" then some "languageConstants/1003"
  else if l == "fr" then some "languageConstants/1002"
  else if l == "de" then some "languageConstants/1001"
  else if l == "pt" then some "languageConstants/1014"
  else if l == "it" then some "languageConstants/1004"
  else if l == "ru" then some "languageConstants/1031"
  else if l == "ja" then some "languageConstants/1005"
  else if l == "zh" then some "languageConstants/1017"
  else none

/-- The `location_mapping` dict of src/app.py lines 138-146, as a lookup
function. -/
def location_mapping (l : String) : Option String :=
  if l == "US" then some "geoTargetConstants/2840"
  else if l == "CA" then some "geoTargetConstants/2124"
  else if l == "GB" then some "geoTargetConstants/2826"
  else if l == "AU" then some "geoTargetConstants/2036"
  else if l == "DE" then some "geoTargetConstants/2276"
  else if l == "FR" then some "geoTargetConstants/2250"
  else if l == "ES" then some "geoTargetConstants/2724"
  else none

/-- The value assigned to `request.language` by src/app.py lines 153-159:
table hit, else pass-through of an already-prefixed identifier, else the
English default. -/
def request_language (language : String) : String :=
  match language_mapping language with
  | some v => v
  | none =>
    if startswith language "languageConstants/" then language
    else "languageConstants/1000"

/-- The contents of `request.geo_target_constants` after src/app.py lines
162-170: the repeated field starts empty and at most one element is
appended (table hit, pass-through of a prefixed identifier, or the US
default when the location string is truthy); when `location` is the empty
string no branch fires and nothing is appended. -/
def request_geo_target_constants (location : String) : List String :=
  match location_mapping location with
  | some v => [v]
  | none =>
    if startswith location "geoTargetConstants/" then [location]
    else if location ≠ "" then ["geoTargetConstants/2840"]
    else []

/-- The `GenerateKeywordIdeasRequest` object as populated by
`generate_keyword_ideas` (src/app.py lines 148-195) before the RPC is
issued. Seeds are `none` when the corresponding branch does not attach
them. -/
structure GenerateKeywordIdeasRequest where
  customer_id : String
  language : String
  geo_target_constants : List String
  keyword_seed : Option (List String)
  url_seed : Option String
  site_seed : Option (List String)
deriving DecidableEq

/-- The request built by `generate_keyword_ideas` (src/app.py lines
148-195): `keyword_seed` is attached iff `keywords` is non-empty (line
178), `url_seed` iff `page_url` is truthy (line 185), `site_seed` iff
`competitors_domains` is non-empty (line 191). -/
def generate_keyword_ideas_request (customer_id : String) (keywords : List String)
    (language : String) (location : String) (page_url : Option String)
    (competitors_domains : List String) : GenerateKeywordIdeasRequest :=
  { customer_id := customer_id
    language := request_language language
    geo_target_constants := request_geo_target_constants location
    keyword_seed := if keywords.isEmpty then none else some keywords
    url_seed :=
      match page_url with
      | some u => if u == "" then none else some u
      | none => none
    site_seed := if competitors_domains.isEmpty then none else some competitors_domains }

/-- The competition enum of the provider response (spec section 3). -/
inductive Competition where
  | UNSPECIFIED
  | UNKNOWN
  | LOW
  | MEDIUM
  | HIGH
deriving DecidableEq

/-- Rendering of the competition enum by `str(...)` in src/app.py line 89. -/
def Competition.name : Competition → String
  | .UNSPECIFIED => "KeywordPlanCompetitionLevel.UNSPECIFIED"
  | .UNKNOWN => "KeywordPlanCompetitionLevel.UNKNOWN"
  | .LOW => "KeywordPlanCompetitionLevel.LOW"
  | .MEDIUM => "KeywordPlanCompetitionLevel.MEDIUM"
  | .HIGH => "KeywordPlanCompetitionLevel.HIGH"

/-- Metrics of one provider idea (`idea.keyword_idea_metrics` as read by
src/app.py lines 83-92).  Proto integer fields read 0 when unset, so an
absent bid is represented by the value 0. -/
structure KeywordIdeaMetrics where
  avg_monthly_searches : Nat
  competition : Competition
  competition_index : Nat
  low_top_of_page_bid_micros : Nat
  high_top_of_page_bid_micros : Nat
deriving DecidableEq

/-- One element of the provider response iterated at src/app.py line 81. -/
structure KeywordIdea where
  text : String
  keyword_idea_metrics : KeywordIdeaMetrics
deriving DecidableEq

/-- One element of `formatted_results` (src/app.py lines 86-93). -/
structure FormattedIdea where
  text : String
  search_volume : Nat
  competition : String
  competition_index : Nat
  low_top_of_page_bid : ℚ
  high_top_of_page_bid : ℚ
deriving DecidableEq

/-- Python's `round(x, 2)` at unit scale: round to the nearest integer,
ties to the even integer (banker's rounding, as CPython documents for
`round`). -/
def roundHalfEven (q : ℚ) : ℤ :=
  if q - ⌊q⌋ < 1/2 then ⌊q⌋
  else if q - ⌊q⌋ > 1/2 then ⌊q⌋ + 1
  else if ⌊q⌋ % 2 = 0 then ⌊q⌋ else ⌊q⌋ + 1

/-- Python's `round(x, 2)` (src/app.py lines 91-92), over exact rationals. -/
def round2 (q : ℚ) : ℚ := (roundHalfEven (q * 100) : ℚ) / 100

/-- The formatting of one idea into a `formatted_results` entry
(src/app.py lines 83-93): bids are `micros / 1000000` when the micros
value is non-zero (truthy) and `0` otherwise, then rounded to 2 decimals;
the competition enum is rendered via `str`. -/
def formatIdea (idea : KeywordIdea) : FormattedIdea :=
  let low_top_of_page_bid : ℚ :=
    if idea.keyword_idea_metrics.low_top_of_page_bid_micros ≠ 0 then
      (idea.keyword_idea_metrics.low_top_of_page_bid_micros : ℚ) / 1000000
    else 0
  let high_top_of_page_bid : ℚ :=
    if idea.keyword_idea_metrics.high_top_of_page_bid_micros ≠ 0 then
      (idea.keyword_idea_metrics.high_top_of_page_bid_micros : ℚ) / 1000000
    else 0
  { text := idea.text
    search_volume := idea.keyword_idea_metrics.avg_monthly_searches
    competition := idea.keyword_idea_metrics.competition.name
    competition_index := idea.keyword_idea_metrics.competition_index
    low_top_of_page_bid := round2 low_top_of_page_bid
    high_top_of_page_bid := round2 high_top_of_page_bid }

/-- A JSON value of the kinds the endpoint consumes from `request.json`. -/
inductive JVal where
  | str (s : String)
  | list (l : List String)
  | bool (b : Bool)
deriving DecidableEq

/-- Python truthiness of the JSON values modelled: a string is truthy iff
non-empty, a list iff non-empty, a boolean iff `True`. -/
def JVal.truthy : JVal → Bool
  | .str s => !(s == "")
  | .list l => !l.isEmpty
  | .bool b => b

/-- Truthiness of a `dict.get` result, where an absent key (`None`) is
falsy. -/
def truthyOpt : Option JVal → Bool
  | none => false
  | some v => v.truthy

/-- `data.get(key)` over the JSON body, modelled as an association list
with distinct keys. -/
def jsonGet (data : List (String × JVal)) (key : String) : Option JVal :=
  (data.find? (fun p => p.1 == key)).map Prod.snd

/-- `data.get(key, default)`. -/
def jsonGetD (data : List (String × JVal)) (key : String) (d : JVal) : JVal :=
  (jsonGet data key).getD d

/-- The data of a `GoogleAdsException` as read by the handler
(src/app.py lines 106-113): `ex.error.code().name`, the messages of
`ex.failure.errors`, and `str(ex)`. -/
structure GoogleAdsExceptionData where
  code_name : String
  failure_error_messages : List String
  str_repr : String
deriving DecidableEq

/-- Outcome of the credential resolution plus provider call (src/app.py
lines 66-77), abstracted: a successful idea list, a `GoogleAdsException`,
or any other exception (carrying `str(e)`). -/
inductive ProviderOutcome where
  | ideas (l : List KeywordIdea)
  | adsError (ex : GoogleAdsExceptionData)
  | otherError (msg : String)

/-- The JSON body of a handler response; `none` means the key is absent. -/
structure ResponseBody where
  error : Option String := none
  detail : Option String := none
  keyword_ideas : Option (List FormattedIdea) := none
  visualization : Option String := none
deriving DecidableEq

/-- A handler result: HTTP status, response body, and whether the
credential resolver / provider call (src/app.py lines 66-77) was reached. -/
structure HandlerResult where
  status : Nat
  body : ResponseBody
  provider_called : Bool

/-- The input validation of the handler (src/app.py lines 59-63):
`some msg` is a 400 validation response, `none` means validation passed. -/
def validate_keyword_query (data : List (String × JVal)) : Option String :=
  if !truthyOpt (jsonGet data "customer_id") then
    some "Missing required parameter: customer_id"
  else if !(jsonGetD data "keywords" (JVal.list [])).truthy
      && !truthyOpt (jsonGet data "page_url")
      && !(jsonGetD data "competitors_domains" (JVal.list [])).truthy then
    some "You must provide at least one of: keywords, page_url, or competitors_domains"
  else none

/-- `data.get('create_visualization', True)` as a boolean condition
(src/app.py line 97). -/
def create_visualization_flag (data : List (String × JVal)) : Bool :=
  (jsonGetD data "create_visualization" (JVal.bool true)).truthy

/-- The `/api/keyword-ideas` handler `get_keyword_ideas` (src/app.py lines
46-118), with the provider call abstracted by `outcome` and the chart
renderer by `render`.  On a validation failure the handler returns before
the credential resolver and the provider call (lines 59-63); otherwise the
outcome is formatted (lines 80-104) or the exception is mapped (lines
106-118).  The `visualization` key is set only when `visualization_url`
is truthy (lines 101-102). -/
def get_keyword_ideas (data : List (String × JVal)) (outcome : ProviderOutcome)
    (render : List FormattedIdea → String) : HandlerResult :=
  match validate_keyword_query data with
  | some msg => ⟨400, { error := some msg }, false⟩
  | none =>
    match outcome with
    | .ideas ideas =>
      let formatted := ideas.map formatIdea
      let visualization_url : Option String :=
        if !formatted.isEmpty && create_visualization_flag data then
          some (render formatted)
        else none
      let visualization : Option String :=
        match visualization_url with
        | some s => if s == "" then none else some s
        | none => none
      ⟨200, { keyword_ideas := some formatted, visualization := visualization }, true⟩
    | .adsError ex =>
      ⟨400, { error := some ("Google Ads API error: " ++ ex.code_name)
              detail := some (ex.failure_error_messages.headD ex.str_repr) }, true⟩
    | .otherError msg => ⟨500, { error := some msg }, true⟩

/-- A trivial renderer, used to instantiate the abstracted chart renderer
in concrete evaluations. -/
def emptyRender : List FormattedIdea → String := fun _ => ""

/-! ### Helper lemmas -/

theorem language_mapping_eq_none (l : String)
    (h : l ∉ (["en", "es", "fr", "de", "pt", "it", "ru", "ja", "zh"] : List String)) :
    language_mapping l = none := by
  simp only [List.mem_cons, List.not_mem_nil, or_false, not_or] at h
  obtain ⟨h1, h2, h3, h4, h5, h6, h7, h8, h9⟩ := h
  simp [language_mapping, h1, h2, h3, h4, h5, h6, h7, h8, h9]

theorem location_mapping_eq_none (l : String)
    (h : l ∉ (["US", "CA", "GB", "AU", "DE", "FR", "ES"] : List String)) :
    location_mapping l = none := by
  simp only [List.mem_cons, List.not_mem_nil, or_false, not_or] at h
  obtain ⟨h1, h2, h3, h4, h5, h6, h7⟩ := h
  simp [location_mapping, h1, h2, h3, h4, h5, h6, h7]

theorem startswith_language_mapping_none (l : String)
    (h : startswith l "languageConstants/" = true) : language_mapping l = none := by
  apply language_mapping_eq_none
  intro hm
  simp only [List.mem_cons, List.not_mem_nil, or_false] at hm
  rcases hm with rfl | rfl | rfl | rfl | rfl | rfl | rfl | rfl | rfl <;>
    exact absurd h (by decide)

theorem startswith_location_mapping_none (l : String)
    (h : startswith l "geoTargetConstants/" = true) : location_mapping l = none := by
  apply location_mapping_eq_none
  intro hm
  simp only [List.mem_cons, List.not_mem_nil, or_false] at hm
  rcases hm with rfl | rfl | rfl | rfl | rfl | rfl | rfl <;>
    exact absurd h (by decide)

theorem request_language_startswith (l : String)
    (h : startswith l "languageConstants/" = true) : request_language l = l := by
  unfold request_language
  rw [startswith_language_mapping_none l h]
  simp [h]

theorem request_geo_startswith (loc : String)
    (h : startswith loc "geoTargetConstants/" = true) :
    request_geo_target_constants loc = [loc] := by
  unfold request_geo_target_constants
  rw [startswith_location_mapping_none loc h]
  simp [h]

/-! ### Claims about parameter normalization -/

/-- C4: every language code of the nine-entry table maps to exactly the
documented languageConstants identifier; a language string already
prefixed with "languageConstants/" passes through unchanged; any other
language string yields the English default languageConstants/1000. -/
theorem c4_language_normalization :
    (request_language "en" = "languageConstants/1000" ∧
     request_language "es" = "languageConstants/1003" ∧
     request_language "fr" = "languageConstants/1002" ∧
     request_language "de" = "languageConstants/1001" ∧
     request_language "pt" = "languageConstants/1014" ∧
     request_language "it" = "languageConstants/1004" ∧
     request_language "ru" = "languageConstants/1031" ∧
     request_language "ja" = "languageConstants/1005" ∧
     request_language "zh" = "languageConstants/1017") ∧
    (∀ l : String, startswith l "languageConstants/" = true → request_language l = l) ∧
    (∀ l : String, l ∉ (["en", "es", "fr", "de", "pt", "it", "ru", "ja", "zh"] : List String) →
      startswith l "languageConstants/" = false →
      request_language l = "languageConstants/1000") := by
  refine ⟨by decide, fun l h => request_language_startswith l h, fun l hm hs => ?_⟩
  have hm' : language_mapping l = none := language_mapping_eq_none l hm
  simp [request_language, hm', hs]

/-- C4 witness: the pass-through case and the default case at concrete
inputs. -/
theorem c4_witness :
    request_language "languageConstants/1031" = "languageConstants/1031" ∧
    request_language "xx" = "languageConstants/1000" :=
  ⟨c4_language_normalization.2.1 "languageConstants/1031" (by decide),
   c4_language_normalization.2.2 "xx" (by decide) (by decide)⟩

/-- C3 counterexample: for the empty location string the code appends no
geo target at all (the `elif location:` branch of src/app.py line 166 is
not taken), rather than the claimed US default. -/
theorem c3_counterexample :
    request_geo_target_constants "" = [] ∧
    request_geo_target_constants "" ≠ ["geoTargetConstants/2840"] := by decide

/-- C3 amended: every location code of the seven-entry table appends
exactly the documented geoTargetConstants identifier; an already-prefixed
location string is appended unchanged; every other NON-EMPTY location
string appends the US identifier geoTargetConstants/2840; the EMPTY
location string appends nothing. -/
theorem c3_amended_location_normalization :
    (request_geo_target_constants "US" = ["geoTargetConstants/2840"] ∧
     request_geo_target_constants "CA" = ["geoTargetConstants/2124"] ∧
     request_geo_target_constants "GB" = ["geoTargetConstants/2826"] ∧
     request_geo_target_constants "AU" = ["geoTargetConstants/2036"] ∧
     request_geo_target_constants "DE" = ["geoTargetConstants/2276"] ∧
     request_geo_target_constants "FR" = ["geoTargetConstants/2250"] ∧
     request_geo_target_constants "ES" = ["geoTargetConstants/2724"]) ∧
    (∀ loc : String, startswith loc "geoTargetConstants/" = true →
      request_geo_target_constants loc = [loc]) ∧
    (∀ loc : String, loc ∉ (["US", "CA", "GB", "AU", "DE", "FR", "ES"] : List String) →
      startswith loc "geoTargetConstants/" = false → loc ≠ "" →
      request_geo_target_constants loc = ["geoTargetConstants/2840"]) ∧
    request_geo_target_constants "" = [] := by
  refine ⟨by decide, fun loc h => request_geo_startswith loc h,
    fun loc hm hs he => ?_, by decide⟩
  have hm' : location_mapping loc = none := location_mapping_eq_none loc hm
  simp [request_geo_target_constants, hm', hs, he]

/-- C3 witness: the pass-through case and the non-empty default case at
concrete inputs. -/
theorem c3_witness :
    request_geo_target_constants "geoTargetConstants/9999" = ["geoTargetConstants/9999"] ∧
    request_geo_target_constants "XX" = ["geoTargetConstants/2840"] :=
  ⟨c3_amended_location_normalization.2.1 "geoTargetConstants/9999" (by decide),
   c3_amended_location_normalization.2.2.1 "XX" (by decide) (by decide) (by decide)⟩

/-- C10: language normalization is idempotent, and every geo target value
the location normalizer appends is itself normalized to exactly itself,
because every produced value carries the provider namespace prefix and
prefixed values pass through. -/
theorem c10_normalization_idempotent :
    (∀ l : String, request_language (request_language l) = request_language l) ∧
    (∀ loc v : String, v ∈ request_geo_target_constants loc →
      request_geo_target_constants v = [v]) := by
  constructor
  · intro l
    by_cases h1 : l = "en"
    · subst h1; decide
    by_cases h2 : l = "es"
    · subst h2; decide
    by_cases h3 : l = "fr"
    · subst h3; decide
    by_cases h4 : l = "de"
    · subst h4; decide
    by_cases h5 : l = "pt"
    · subst h5; decide
    by_cases h6 : l = "it"
    · subst h6; decide
    by_cases h7 : l = "ru"
    · subst h7; decide
    by_cases h8 : l = "ja"
    · subst h8; decide
    by_cases h9 : l = "zh"
    · subst h9; decide
    have hm : language_mapping l = none := language_mapping_eq_none l (by
      simp [h1, h2, h3, h4, h5, h6, h7, h8, h9])
    by_cases hs : startswith l "languageConstants/" = true
    · rw [request_language_startswith l hs]
      exact request_language_startswith l hs
    · have hs' : startswith l "languageConstants/" = false := by simpa using hs
      have hd : request_language l = "languageConstants/1000" := by
        simp [request_language, hm, hs']
      rw [hd]; decide
  · intro loc v hv
    by_cases h1 : loc = "US"
    · subst h1; simp only [show request_geo_target_constants "US" =
        ["geoTargetConstants/2840"] from by decide, List.mem_singleton] at hv
      subst hv; decide
    by_cases h2 : loc = "CA"
    · subst h2; simp only [show request_geo_target_constants "CA" =
        ["geoTargetConstants/2124"] from by decide, List.mem_singleton] at hv
      subst hv; decide
    by_cases h3 : loc = "GB"
    · subst h3; simp only [show request_geo_target_constants "GB" =
        ["geoTargetConstants/2826"] from by decide, List.mem_singleton] at hv
      subst hv; decide
    by_cases h4 : loc = "AU"
    · subst h4; simp only [show request_geo_target_constants "AU" =
        ["geoTargetConstants/2036"] from by decide, List.mem_singleton] at hv
      subst hv; decide
    by_cases h5 : loc = "DE"
    · subst h5; simp only [show request_geo_target_constants "DE" =
        ["geoTargetConstants/2276"] from by decide, List.mem_singleton] at hv
      subst hv; decide
    by_cases h6 : loc = "FR"
    · subst h6; simp only [show request_geo_target_constants "FR" =
        ["geoTargetConstants/2250"] from by decide, List.mem_singleton] at hv
      subst hv; decide
    by_cases h7 : loc = "ES"
    · subst h7; simp only [show request_geo_target_constants "ES" =
        ["geoTargetConstants/2724"] from by decide, List.mem_singleton] at hv
      subst hv; decide
    have hm : location_mapping loc = none := location_mapping_eq_none loc (by
      simp [h1, h2, h3, h4, h5, h6, h7])
    by_cases hs : startswith loc "geoTargetConstants/" = true
    · rw [request_geo_startswith loc hs, List.mem_singleton] at hv
      subst hv
      exact request_geo_startswith _ hs
    · have hs' : startswith loc "geoTargetConstants/" = false := by simpa using hs
      by_cases he : loc = ""
      · subst he
        rw [show request_geo_target_constants "" = [] from by decide] at hv
        exact absurd hv (List.not_mem_nil v)
      · have hd : request_geo_target_constants loc = ["geoTargetConstants/2840"] := by
          simp [request_geo_target_constants, hm, hs', he]
        rw [hd, List.mem_singleton] at hv
        subst hv; decide

/-- C10 witness: idempotence at a table code and re-normalization of a
produced geo target value. -/
theorem c10_witness :
    request_language (request_language "fr") = request_language "fr" ∧
    request_geo_target_constants "geoTargetConstants/2840" = ["geoTargetConstants/2840"] :=
  ⟨c10_normalization_idempotent.1 "fr",
   c10_normalization_idempotent.2 "US" "geoTargetConstants/2840" (by decide)⟩

/-! ### Claims about the result formatter -/

/-- C6: for every idea with a non-zero bid-micros value the formatted
display bid is the micros value divided by 1,000,000 rounded to 2 decimal
places, and in particular 2,500,000 micros format to exactly 2.5. -/
theorem c6_bid_micros_conversion :
    (∀ idea : KeywordIdea, idea.keyword_idea_metrics.low_top_of_page_bid_micros ≠ 0 →
      (formatIdea idea).low_top_of_page_bid =
        round2 ((idea.keyword_idea_metrics.low_top_of_page_bid_micros : ℚ) / 1000000)) ∧
    (∀ idea : KeywordIdea, idea.keyword_idea_metrics.high_top_of_page_bid_micros ≠ 0 →
      (formatIdea idea).high_top_of_page_bid =
        round2 ((idea.keyword_idea_metrics.high_top_of_page_bid_micros : ℚ) / 1000000)) ∧
    round2 ((2500000 : ℚ) / 1000000) = 5 / 2 := by
  refine ⟨fun idea h => ?_, fun idea h => ?_, by norm_num [round2, roundHalfEven]⟩
  · simp [formatIdea, h]
  · simp [formatIdea, h]

/-- C6 witness: an idea with `low_top_of_page_bid_micros = 2500000`
formats its low bid to the rounded quotient. -/
theorem c6_witness :
    (2500000 : Nat) ≠ 0 ∧
    (formatIdea ⟨"shoes", ⟨1000, Competition.HIGH, 80, 2500000, 3000000⟩⟩).low_top_of_page_bid =
      round2 (((2500000 : Nat) : ℚ) / 1000000) :=
  ⟨by decide,
   c6_bid_micros_conversion.1 ⟨"shoes", ⟨1000, Competition.HIGH, 80, 2500000, 3000000⟩⟩ (by decide)⟩

/-- C7: for every idea whose low or high bid-micros field is zero (the
proto reading of an absent field, and the only falsy integer), the
formatter substitutes 0 for that display bid; the formatter is a total
function, so formatting always succeeds. -/
theorem c7_zero_bid_substitution (idea : KeywordIdea) :
    (idea.keyword_idea_metrics.low_top_of_page_bid_micros = 0 →
      (formatIdea idea).low_top_of_page_bid = 0) ∧
    (idea.keyword_idea_metrics.high_top_of_page_bid_micros = 0 →
      (formatIdea idea).high_top_of_page_bid = 0) := by
  have h0 : round2 0 = 0 := by norm_num [round2, roundHalfEven]
  constructor <;> intro h <;> simp [formatIdea, h, h0]

/-- C7 witness: an idea with both bid-micros fields zero formats both
display bids to 0. -/
theorem c7_witness :
    (formatIdea ⟨"kw", ⟨0, Competition.LOW, 0, 0, 0⟩⟩).low_top_of_page_bid = 0 ∧
    (formatIdea ⟨"kw", ⟨0, Competition.LOW, 0, 0, 0⟩⟩).high_top_of_page_bid = 0 :=
  ⟨(c7_zero_bid_substitution ⟨"kw", ⟨0, Competition.LOW, 0, 0, 0⟩⟩).1 rfl,
   (c7_zero_bid_substitution ⟨"kw", ⟨0, Competition.LOW, 0, 0, 0⟩⟩).2 rfl⟩

/-! ### Claims about the HTTP handler -/

/-- C1 counterexample: the handler reads the JSON key
`competitors_domains` (src/app.py line 57), so a body whose competitor
list is under the spec's key `competitor_domains` fails seed validation
with HTTP 400 even though customer_id is present and the list is
non-empty. -/
theorem c1_counterexample :
    (get_keyword_ideas
        [("customer_id", JVal.str "1234567890"),
         ("competitor_domains", JVal.list ["example.com"])]
        (ProviderOutcome.ideas []) emptyRender).status = 400 ∧
    (get_keyword_ideas
        [("customer_id", JVal.str "1234567890"),
         ("competitor_domains", JVal.list ["example.com"])]
        (ProviderOutcome.ideas []) emptyRender).body.error =
      some "You must provide at least one of: keywords, page_url, or competitors_domains" ∧
    (get_keyword_ideas
        [("customer_id", JVal.str "1234567890"),
         ("competitor_domains", JVal.list ["example.com"])]
        (ProviderOutcome.ideas []) emptyRender).provider_called = false :=
  ⟨rfl, rfl, rfl⟩

/-- C1 amended: for every request body with a truthy customer_id and a
non-empty list under the key `competitors_domains` (the key the code
reads), validation succeeds and the provider call is reached, even when
keywords and page_url are absent. -/
theorem c1_amended_seed_validation (data : List (String × JVal))
    (outcome : ProviderOutcome) (render : List FormattedIdea → String)
    (cds : List String)
    (hcust : truthyOpt (jsonGet data "customer_id") = true)
    (hcd : jsonGet data "competitors_domains" = some (JVal.list cds))
    (hne : cds ≠ []) :
    validate_keyword_query data = none ∧
    (get_keyword_ideas data outcome render).provider_called = true := by
  have hv : validate_keyword_query data = none := by
    unfold validate_keyword_query
    rw [hcust]
    cases cds with
    | nil => exact absurd rfl hne
    | cons a as => simp [jsonGetD, hcd, JVal.truthy]
  refine ⟨hv, ?_⟩
  unfold get_keyword_ideas
  rw [hv]
  cases outcome <;> rfl

/-- C1 witness: a body holding only customer_id and a one-element
competitors_domains list passes validation and reaches the provider. -/
theorem c1_witness :
    validate_keyword_query
        [("customer_id", JVal.str "1234567890"),
         ("competitors_domains", JVal.list ["example.com"])] = none ∧
    (get_keyword_ideas
        [("customer_id", JVal.str "1234567890"),
         ("competitors_domains", JVal.list ["example.com"])]
        (ProviderOutcome.ideas []) emptyRender).provider_called = true :=
  c1_amended_seed_validation _ _ _ ["example.com"] (by decide) (by decide) (by decide)

/-- C5 counterexample: the empty request body has no seed source, yet the
400 response carries the customer_id message, not a message naming the
missing seed fields (the customer_id check at src/app.py line 59 fires
first). -/
theorem c5_counterexample :
    (get_keyword_ideas [] (ProviderOutcome.ideas []) emptyRender).status = 400 ∧
    (get_keyword_ideas [] (ProviderOutcome.ideas []) emptyRender).body.error =
      some "Missing required parameter: customer_id" ∧
    (some "Missing required parameter: customer_id" : Option String) ≠
      some "You must provide at least one of: keywords, page_url, or competitors_domains" :=
  ⟨rfl, rfl, by decide⟩

/-- C5 amended: for every request with none of keywords, page_url,
competitors_domains populated the handler returns HTTP 400 and neither
the credential resolver nor the provider call is reached; the error
message names the missing seed fields when customer_id is present, and
names customer_id when it too is missing. -/
theorem c5_amended_no_seed_validation (data : List (String × JVal))
    (outcome : ProviderOutcome) (render : List FormattedIdea → String)
    (hkw : (jsonGetD data "keywords" (JVal.list [])).truthy = false)
    (hpu : truthyOpt (jsonGet data "page_url") = false)
    (hcd : (jsonGetD data "competitors_domains" (JVal.list [])).truthy = false) :
    (get_keyword_ideas data outcome render).status = 400 ∧
    (get_keyword_ideas data outcome render).provider_called = false ∧
    ((get_keyword_ideas data outcome render).body.error =
        some "Missing required parameter: customer_id" ∨
      (get_keyword_ideas data outcome render).body.error =
        some "You must provide at least one of: keywords, page_url, or competitors_domains") ∧
    (truthyOpt (jsonGet data "customer_id") = true →
      (get_keyword_ideas data outcome render).body.error =
        some "You must provide at least one of: keywords, page_url, or competitors_domains") := by
  by_cases hc : truthyOpt (jsonGet data "customer_id") = true
  · have hv : validate_keyword_query data =
        some "You must provide at least one of: keywords, page_url, or competitors_domains" := by
      unfold validate_keyword_query
      rw [hc]
      simp [hkw, hpu, hcd]
    unfold get_keyword_ideas
    rw [hv]
    exact ⟨rfl, rfl, Or.inr rfl, fun _ => rfl⟩
  · have hc' : truthyOpt (jsonGet data "customer_id") = false := by simpa using hc
    have hv : validate_keyword_query data = some "Missing required parameter: customer_id" := by
      unfold validate_keyword_query
      rw [hc']
      simp
    unfold get_keyword_ideas
    rw [hv]
    exact ⟨rfl, rfl, Or.inl rfl, fun hcc => absurd hcc hc⟩

/-- C5 witness: a body with only a customer_id gets the seed-naming 400
and the provider is never called. -/
theorem c5_witness :
    (get_keyword_ideas [("customer_id", JVal.str "9")]
        (ProviderOutcome.ideas []) emptyRender).status = 400 ∧
    (get_keyword_ideas [("customer_id", JVal.str "9")]
        (ProviderOutcome.ideas []) emptyRender).provider_called = false ∧
    (get_keyword_ideas [("customer_id", JVal.str "9")]
        (ProviderOutcome.ideas []) emptyRender).body.error =
      some "You must provide at least one of: keywords, page_url, or competitors_domains" := by
  have h := c5_amended_no_seed_validation [("customer_id", JVal.str "9")]
    (ProviderOutcome.ideas []) emptyRender (by decide) (by decide) (by decide)
  exact ⟨h.1, h.2.1, h.2.2.2 (by decide)⟩

/-- C8: when the provider returns no ideas the response carries no
visualization key at all, whatever the body says; and an absent
create_visualization key defaults to true. -/
theorem c8_empty_ideas_no_visualization :
    (∀ (data : List (String × JVal)) (render : List FormattedIdea → String),
      (get_keyword_ideas data (ProviderOutcome.ideas []) render).body.visualization = none) ∧
    (∀ data : List (String × JVal), jsonGet data "create_visualization" = none →
      create_visualization_flag data = true) := by
  constructor
  · intro data render
    unfold get_keyword_ideas
    cases hv : validate_keyword_query data with
    | some msg => rfl
    | none => rfl
  · intro data h
    unfold create_visualization_flag jsonGetD
    rw [h]
    rfl

/-- C8 witness: a valid request with create_visualization set to true and
an empty idea list yields a response without a visualization key, and the
default of the absent flag is true. -/
theorem c8_witness :
    (get_keyword_ideas
        [("customer_id", JVal.str "9"), ("keywords", JVal.list ["shoes"]),
         ("create_visualization", JVal.bool true)]
        (ProviderOutcome.ideas []) emptyRender).body.visualization = none ∧
    create_visualization_flag [] = true :=
  ⟨c8_empty_ideas_no_visualization.1 _ emptyRender,
   c8_empty_ideas_no_visualization.2 [] rfl⟩

/-- C9: a GoogleAdsException raised by the provider call maps to HTTP 400
whose error field carries the exception's symbolic code name and whose
detail field carries the first failure message, falling back to the
exception's string form when no failure messages exist. -/
theorem c9_google_ads_exception_mapping (data : List (String × JVal))
    (ex : GoogleAdsExceptionData) (render : List FormattedIdea → String)
    (hvalid : validate_keyword_query data = none) :
    (get_keyword_ideas data (ProviderOutcome.adsError ex) render).status = 400 ∧
    (get_keyword_ideas data (ProviderOutcome.adsError ex) render).body.error =
      some ("Google Ads API error: " ++ ex.code_name) ∧
    (get_keyword_ideas data (ProviderOutcome.adsError ex) render).body.detail =
      some (ex.failure_error_messages.headD ex.str_repr) := by
  unfold get_keyword_ideas
  rw [hvalid]
  exact ⟨rfl, rfl, rfl⟩

/-- C9 witness: a RESOURCE_EXHAUSTED failure with one message yields a
400 carrying that code name and that message. -/
theorem c9_witness :
    (get_keyword_ideas [("customer_id", JVal.str "9"), ("keywords", JVal.list ["shoes"])]
        (ProviderOutcome.adsError
          ⟨"RESOURCE_EXHAUSTED", ["Too many requests."], "GoogleAdsException"⟩)
        emptyRender).status = 400 ∧
    (get_keyword_ideas [("customer_id", JVal.str "9"), ("keywords", JVal.list ["shoes"])]
        (ProviderOutcome.adsError
          ⟨"RESOURCE_EXHAUSTED", ["Too many requests."], "GoogleAdsException"⟩)
        emptyRender).body.error = some "Google Ads API error: RESOURCE_EXHAUSTED" ∧
    (get_keyword_ideas [("customer_id", JVal.str "9"), ("keywords", JVal.list ["shoes"])]
        (ProviderOutcome.adsError
          ⟨"RESOURCE_EXHAUSTED", ["Too many requests."], "GoogleAdsException"⟩)
        emptyRender).body.detail = some "Too many requests." := by
  have h := c9_google_ads_exception_mapping
    [("customer_id", JVal.str "9"), ("keywords", JVal.list ["shoes"])]
    ⟨"RESOURCE_EXHAUSTED", ["Too many requests."], "GoogleAdsException"⟩
    emptyRender rfl
  exact ⟨h.1, h.2.1.trans (by decide), h.2.2.trans (by decide)⟩

end Keywordplanner
